import Mathlib

/-
Verification of the satori-cli resolver, cache, session and polling layer.

The definitions below are a shallow embedding of src/satori.py:
Python strings become Lean String, Python dicts become association lists
with first-match lookup, the on-disk JSON file of a Cache becomes an
Option-valued field (none = the file is missing), and exceptions become
an Except value.  Network traffic is modelled by an Env record holding
the rows the page parser would extract, plus a request counter threaded
through a Sess record.
-/

set_option autoImplicit false

/-- Runtime errors of the Python program: SatoriError with its message,
KeyError, IndexError and ValueError. -/
inductive Err where
  | satori (msg : String)
  | keyError (key : String)
  | indexError
  | valueError (msg : String)
  deriving DecidableEq, Repr

/-- ASCII lower-casing of one character, as Python 2 str.lower does per byte. -/
def lowerCh (c : Char) : Char :=
  if 'A' ≤ c ∧ c ≤ 'Z' then Char.ofNat (c.toNat + 32) else c

/-- Python s.lower() on byte strings: ASCII-only lower-casing. -/
def pyLower (s : String) : String :=
  String.mk (s.toList.map lowerCh)

/-- Whether the first list is an initial segment of the second. -/
def pyStarts : List Char → List Char → Bool
  | [], _ => true
  | _ :: _, [] => false
  | a :: ta, b :: tb => a == b && pyStarts ta tb

/-- Python substring containment, needle in haystack, on character lists. -/
def pyIn (needle : List Char) : List Char → Bool
  | [] => needle.isEmpty
  | b :: tb => pyStarts needle (b :: tb) || pyIn needle tb

/-- The whitespace characters stripped by Python int() on str arguments. -/
def isPySpace (c : Char) : Bool :=
  c == ' ' || c == '\t' || c == '\n' || c == '\r' || c == Char.ofNat 11 || c == Char.ofNat 12

/-- Accumulate a decimal value; fails on the first non-digit. -/
def digitsValAux : Nat → List Char → Option Nat
  | acc, [] => some acc
  | acc, c :: rest =>
    if c.isDigit then digitsValAux (acc * 10 + (c.toNat - 48)) rest else none

/-- Value of a nonempty all-digit character list; none otherwise. -/
def digitsVal : List Char → Option Nat
  | [] => none
  | c :: rest => if c.isDigit then digitsValAux 0 (c :: rest) else none

/-- The characters of s with leading and trailing Python whitespace removed. -/
def pyStripped (s : String) : List Char :=
  ((s.toList.dropWhile isPySpace).reverse.dropWhile isPySpace).reverse

/-- Python int(s) for str s: optional whitespace, optional sign, decimal digits;
none models the ValueError raised on any other shape. -/
def pyInt (s : String) : Option Int :=
  match pyStripped s with
  | '+' :: rest => (digitsVal rest).map (fun n => (n : Int))
  | '-' :: rest => (digitsVal rest).map (fun n => -(n : Int))
  | cs => (digitsVal cs).map (fun n => (n : Int))

/-- A single-quote character, kept out of string literals on purpose. -/
def sqChar : Char := Char.ofNat 39

/-- Python repr of a plain string without quotes or escapes inside. -/
def pyRepr (s : String) : String :=
  String.singleton sqChar ++ s ++ String.singleton sqChar

/-- repr of a 1-tuple of strings, the cache key built by the cached decorator. -/
def pyReprArgs1 (a : String) : String :=
  "(" ++ pyRepr a ++ ",)"

/-- repr of a 2-tuple of strings, the cache key built by the cached decorator. -/
def pyReprArgs2 (a b : String) : String :=
  "(" ++ pyRepr a ++ ", " ++ pyRepr b ++ ")"

/-- JSON values as stored by the cache files; numbers restricted to the
integers the program actually stores. -/
inductive Json where
  | null
  | bool (b : Bool)
  | num (n : Int)
  | str (s : String)
  | arr (items : List Json)
  | obj (fields : List (String × Json))

/-- match_code from src/satori.py lines 29-32: case-insensitive equality,
or the query plus a trailing asterisk equals the code. -/
def match_code (query code : String) : Bool :=
  let q := pyLower query
  let c := pyLower code
  q == c || q ++ "*" == c

/-- The Cache class of src/satori.py lines 34-69.  file is the JSON mapping
currently on disk (none = missing file, which load treats as empty);
data is the in-memory mapping (none = not loaded yet).  The dict is an
association list whose first binding for a key wins. -/
structure Cache (α : Type) where
  file : Option (List (String × α))
  data : Option (List (String × α))

/-- Cache.load: a no-op when data is present, otherwise read the file,
with a missing file giving the empty mapping. -/
def Cache.loadState {α : Type} (c : Cache α) : Cache α :=
  { file := c.file, data := some (c.data.getD (c.file.getD [])) }

/-- The in-memory mapping after a load. -/
def Cache.peek {α : Type} (c : Cache α) (k : String) : Option α :=
  (c.loadState.data.getD []).lookup k

/-- The membership test performed by key-in-cache (Cache.contains). -/
def Cache.memKey {α : Type} (c : Cache α) (k : String) : Bool :=
  (c.peek k).isSome

/-- key in cache: loads, then tests membership; returns the test together
with the cache object, whose in-memory state the load mutated. -/
def Cache.containsKey {α : Type} (c : Cache α) (k : String) : Bool × Cache α :=
  (c.memKey k, c.loadState)

/-- cache[key]: loads, then indexes the mapping, raising KeyError on a miss. -/
def Cache.getItem {α : Type} (c : Cache α) (k : String) : Except Err α × Cache α :=
  (match c.peek k with
   | some v => .ok v
   | none => .error (.keyError k),
   c.loadState)

/-- cache.get(key): loads, then returns the stored value or the None default. -/
def Cache.getValue {α : Type} (c : Cache α) (k : String) : Option α × Cache α :=
  (c.peek k, c.loadState)

/-- cache[key] = value: loads, updates the mapping, and saves, which dumps
the whole mapping to a temp file and atomically renames it over the path,
so the file afterwards equals the in-memory data. -/
def Cache.setItem {α : Type} (c : Cache α) (k : String) (v : α) : Cache α :=
  { file := some ((k, v) :: c.loadState.data.getD [])
    data := some ((k, v) :: c.loadState.data.getD []) }

/-- A fresh Cache instance constructed over the same backing path:
nothing loaded, same file contents. -/
def Cache.reopened {α : Type} (c : Cache α) : Cache α :=
  { file := c.file, data := none }

/-- A Cache whose backing file does not exist and which was never loaded. -/
def emptyCache {α : Type} : Cache α := { file := none, data := none }

/-- The cached decorator of src/satori.py lines 71-82, applied to one call:
key = repr(args); if the key is absent compute f, store it, and in either
case return cache[key].  The third component counts how many times the
wrapped function f was invoked. -/
def cachedCall {α : Type} (f : Unit → α) (key : String) (c : Cache α) :
    Except Err α × Cache α × Nat :=
  let chk := c.containsKey key
  if chk.1 then
    let g := chk.2.getItem key
    (g.1, g.2, 0)
  else
    let v := f ()
    let c2 := chk.2.setItem key v
    let g := c2.getItem key
    (g.1, g.2, 1)

/-- One problem row as yielded by Session.get_problems (lines 171-188):
the 6-tuple (id, pdf, url, code, name, desc) scraped from the problems table. -/
structure ProblemRow where
  pid : Option Int
  pdf : Option String
  purl : Option String
  code : String
  pname : String
  pdesc : String
  deriving DecidableEq, Repr

/-- The rows the page parser would extract from the remote site:
the contests of the first results table, the contests of the remaining
tables (shown only when the other flag is truthy), and the problem rows
of each contest page, keyed by contest id. -/
structure Env where
  ownContests : List (String × Int)
  otherContests : List (String × Int)
  problemRows : Int → List ProblemRow

/-- Result of match_problem: either the integer shortcut value or the
(id, pdf, url) triple of the first matching row. -/
inductive PVal where
  | int (n : Int)
  | triple (pid : Option Int) (pdf : Option String) (purl : Option String)
  deriving DecidableEq, Repr

/-- Result of match_submit_problem: either the integer shortcut value or
the (id, code) pair of the first matching entry. -/
inductive SVal where
  | int (n : Int)
  | pair (pid : Option Int) (code : String)
  deriving DecidableEq, Repr

/-- The mutable session state: the three per-method caches of Session
(lines 90-92) and a counter of HTTP requests issued through
Session.request. -/
structure Sess where
  contestCache : Cache Int
  problemCache : Cache PVal
  submitCache : Cache SVal
  reqs : Nat

/-- A session whose cache files are all missing and unloaded. -/
def sess0 : Sess :=
  { contestCache := emptyCache, problemCache := emptyCache
    submitCache := emptyCache, reqs := 0 }

/-- Record one HTTP request made via Session.request. -/
def addReq (s : Sess) : Sess := { s with reqs := s.reqs + 1 }

/-- The contest rows yielded by Session.get_contests (lines 144-155) when
called with the query string as its other argument: a falsy (empty) query
restricts to the first results table, a truthy one includes the rest. -/
def listedContests (env : Env) (q : String) : List (String × Int) :=
  if q = "" then env.ownContests else env.ownContests ++ env.otherContests

/-- The test applied to each listed contest by match_contest:
query.lower() in name.lower(). -/
def contestNameMatches (q : String) (row : String × Int) : Bool :=
  pyIn (pyLower q).toList (pyLower row.1).toList

/-- The body of Session.match_contest (lines 157-165), before the cached
decorator: parse the query as an int, else fetch the contest list (one
request, note that the query itself is passed as the other flag) and
return the id of the first contest whose name contains the query
case-insensitively, raising SatoriError otherwise. -/
def matchContestFunc (env : Env) (q : String) (s : Sess) : Except Err Int × Sess :=
  match pyInt q with
  | some n => (.ok n, s)
  | none =>
    let s1 := addReq s
    match (listedContests env q).find? (contestNameMatches q) with
    | some row => (.ok row.2, s1)
    | none => (.error (.satori ("no contest " ++ pyRepr q ++ " found")), s1)

/-- Session.match_contest with its cached decorator applied
(cache key repr((query,)), cache attribute match_contest_cache). -/
def matchContest (env : Env) (q : String) (s : Sess) : Except Err Int × Sess :=
  let key := pyReprArgs1 q
  let chk := s.contestCache.containsKey key
  let s1 := { s with contestCache := chk.2 }
  if chk.1 then
    let g := s1.contestCache.getItem key
    (g.1, { s1 with contestCache := g.2 })
  else
    match matchContestFunc env q s1 with
    | (.error e, s2) => (.error e, s2)
    | (.ok v, s2) =>
      let s3 := { s2 with contestCache := s2.contestCache.setItem key v }
      let g := s3.contestCache.getItem key
      (g.1, { s3 with contestCache := g.2 })

/-- Session.get_problems (lines 171-188): resolve the contest via the
cached match_contest, then fetch and parse the problems page (one more
request).  The parsed rows come from the environment. -/
def getProblemsM (env : Env) (contest : String) (s : Sess) :
    Except Err (List ProblemRow) × Sess :=
  match matchContest env contest s with
  | (.error e, s1) => (.error e, s1)
  | (.ok cid, s1) => (.ok (env.problemRows cid), addReq s1)

/-- The body of Session.match_problem (lines 223-233): integer shortcut on
the problem argument, else scan the rows of get_problems(contest) for the
first code accepted by match_code, returning its (id, pdf, url) triple. -/
def matchProblemFunc (env : Env) (contest problem : String) (s : Sess) :
    Except Err PVal × Sess :=
  match pyInt problem with
  | some n => (.ok (.int n), s)
  | none =>
    match getProblemsM env contest s with
    | (.error e, s1) => (.error e, s1)
    | (.ok rows, s1) =>
      match rows.find? (fun r => match_code problem r.code) with
      | some r => (.ok (.triple r.pid r.pdf r.purl), s1)
      | none => (.error (.satori ("unknown problem " ++ pyRepr problem)), s1)

/-- Session.match_problem with its cached decorator applied
(cache key repr((contest, problem)), cache attribute match_problem_cache). -/
def matchProblem (env : Env) (contest problem : String) (s : Sess) :
    Except Err PVal × Sess :=
  let key := pyReprArgs2 contest problem
  let chk := s.problemCache.containsKey key
  let s1 := { s with problemCache := chk.2 }
  if chk.1 then
    let g := s1.problemCache.getItem key
    (g.1, { s1 with problemCache := g.2 })
  else
    match matchProblemFunc env contest problem s1 with
    | (.error e, s2) => (.error e, s2)
    | (.ok v, s2) =>
      let s3 := { s2 with problemCache := s2.problemCache.setItem key v }
      let g := s3.problemCache.getItem key
      (g.1, { s3 with problemCache := g.2 })

/-- The body of Session.match_submit_problem (lines 211-221).  After the
integer shortcut the source runs
  for id, code, desc in self.get_problems(problem):
which (a) passes the problem string where get_problems expects the
contest query, so the contest is resolved from the problem argument, and
(b) unpacks the 6-tuples get_problems yields into three names, which in
Python raises ValueError (too many values to unpack) as soon as a first
row is produced.  With no rows the loop body never runs and the function
raises SatoriError (unknown problem). -/
def matchSubmitProblemFunc (env : Env) (contest problem : String) (s : Sess) :
    Except Err SVal × Sess :=
  match pyInt problem with
  | some n => (.ok (.int n), s)
  | none =>
    match getProblemsM env problem s with
    | (.error e, s1) => (.error e, s1)
    | (.ok [], s1) => (.error (.satori ("unknown problem " ++ pyRepr problem)), s1)
    | (.ok (_ :: _), s1) => (.error (.valueError "too many values to unpack"), s1)

/-- Session.match_submit_problem with its cached decorator applied
(cache key repr((contest, problem)), cache attribute
match_submit_problem_cache). -/
def matchSubmitProblem (env : Env) (contest problem : String) (s : Sess) :
    Except Err SVal × Sess :=
  let key := pyReprArgs2 contest problem
  let chk := s.submitCache.containsKey key
  let s1 := { s with submitCache := chk.2 }
  if chk.1 then
    let g := s1.submitCache.getItem key
    (g.1, { s1 with submitCache := g.2 })
  else
    match matchSubmitProblemFunc env contest problem s1 with
    | (.error e, s2) => (.error e, s2)
    | (.ok v, s2) =>
      let s3 := { s2 with submitCache := s2.submitCache.setItem key v }
      let g := s3.submitCache.getItem key
      (g.1, { s3 with submitCache := g.2 })

/-- The persisted settings touched by Session._login: credentials and the
optional satori_token. -/
structure Settings where
  username : Option String
  password : Option String
  satoriToken : Option String
  deriving DecidableEq, Repr

/-- Settings with nothing stored. -/
def st0 : Settings := { username := none, password := none, satoriToken := none }

/-- The login POST response as seen by _login: its status code and the
optional set-cookie header. -/
structure Resp where
  status : Nat
  setCookie : Option String
  deriving DecidableEq, Repr

/-- Python s.split(sep) for a single-character separator: the maximal
sep-free segments, in order, always at least one. -/
def splitChAux (sep : Char) : List Char → List (List Char)
  | [] => [[]]
  | c :: rest =>
    if c == sep then [] :: splitChAux sep rest
    else
      match splitChAux sep rest with
      | h :: t => (c :: h) :: t
      | [] => [[c]]

/-- cookie.split(sep)[1].split(sep2)[0] as run by _login on the set-cookie
header: index 1 raises IndexError when the header holds no separator. -/
def loginToken (cookie : String) : Except Err String :=
  match (splitChAux '=' cookie.toList)[1]? with
  | none => .error .indexError
  | some part =>
    match (splitChAux ';' part)[0]? with
    | none => .error .indexError
    | some tok => .ok tok.asString

/-- The spec wording of the token parsing contract, stated as its own
definition for comparison with the code: the token is the substring of
the set-cookie value between the first equals sign and the first
semicolon that follows it (none when the value has no equals sign). -/
def specTokenOfCookie (cookie : String) : Option String :=
  match cookie.toList.dropWhile (fun c => ! (c == '=')) with
  | [] => none
  | _ :: rest => some ((rest.takeWhile (fun c => ! (c == ';'))).asString)

/-- The response handling of Session._login (lines 135-140): on a 302 the
set-cookie header is read (KeyError when absent) and the parsed token is
stored under satori_token; any other status raises SatoriError
(invalid login) and leaves the settings untouched.  The POST itself and
the credential lookup feeding it are abstracted into the Resp argument. -/
def loginStep (st : Settings) (resp : Resp) : Except Err Unit × Settings :=
  if resp.status = 302 then
    match resp.setCookie with
    | none => (.error (.keyError "set-cookie"), st)
    | some cookie =>
      match loginToken cookie with
      | .error e => (.error e, st)
      | .ok tok => (.ok (), { st with satoriToken := some tok })
  else
    (.error (.satori "invalid login"), st)

/-- The break condition of the wait loop (line 285): the status string is
truthy (nonempty) and differs from the queued sentinel. -/
def isTerminalStatus (s : String) : Bool :=
  s != "" && s != "QUE"

/-- The wait loop of src/satori.py lines 277-287, driven by a script of
the successive statuses get_status would report.  Each iteration compares
the polled status with last_status, emits a notification (recorded in the
first component) exactly when they differ, updates last_status, and stops
when the status is terminal.  The second component is some s when the
loop broke with terminal status s, and none when the script ran out with
the loop still going. -/
def waitRun (last : String) : List String → List String × Option String
  | [] => ([], none)
  | status :: rest =>
    let notifs : List String := if status = last then [] else [status]
    let last1 : String := if status = last then last else status
    if isTerminalStatus status then (notifs, some status)
    else
      let r := waitRun last1 rest
      (notifs ++ r.1, r.2)

/-- The wait loop started as the source starts it, with last_status = "". -/
def waitScripted (script : List String) : List String × Option String :=
  waitRun "" script

/-- A concrete problem row used in the concrete scenarios below. -/
def rowAbc : ProblemRow :=
  { pid := some 10, pdf := some "/pdf/x", purl := none
    code := "abc", pname := "Abc", pdesc := "d" }

/-- An environment with no contests and no problems. -/
def env0 : Env :=
  { ownContests := [], otherContests := [], problemRows := fun _ => [] }

/-- One contest named Contest A with id 1 whose problems page lists the
single problem code abc (id 10). -/
def envC1 : Env :=
  { ownContests := [("Contest A", 1)], otherContests := []
    problemRows := fun cid => if cid = 1 then [rowAbc] else [] }

/-- One contest whose name itself contains abc, so that the problem query
abc resolves to it as a contest. -/
def envC1b : Env :=
  { ownContests := [("abc course", 3)], otherContests := []
    problemRows := fun cid => if cid = 3 then [rowAbc] else [] }

/-- One contest named Algorithms 2019 with id 123. -/
def envW : Env :=
  { ownContests := [("Algorithms 2019", 123)], otherContests := []
    problemRows := fun _ => [] }

/- Helper lemmas about the cache embedding. -/

theorem Cache.peek_loadState {α : Type} (c : Cache α) (k : String) :
    c.loadState.peek k = c.peek k := rfl

theorem Cache.peek_setItem {α : Type} (c : Cache α) (k : String) (v : α) :
    (c.setItem k v).peek k = some v := by
  simp [Cache.peek, Cache.setItem, Cache.loadState, List.lookup]

/- Helper lemmas relating the split-based token parsing to
takeWhile and dropWhile form. -/

theorem splitChAux_head (sep : Char) (cs : List Char) :
    ∃ t, splitChAux sep cs = cs.takeWhile (fun c => ! (c == sep)) :: t := by
  induction cs with
  | nil => exact ⟨[], rfl⟩
  | cons c rest ih =>
    by_cases hc : (c == sep) = true
    · refine ⟨splitChAux sep rest, ?_⟩
      simp [splitChAux, hc, List.takeWhile_cons]
    · obtain ⟨t0, ht0⟩ := ih
      refine ⟨t0, ?_⟩
      simp [splitChAux, hc, ht0, List.takeWhile_cons]

theorem splitChAux_get0 (sep : Char) (cs : List Char) :
    (splitChAux sep cs)[0]? = some (cs.takeWhile (fun c => ! (c == sep))) := by
  obtain ⟨t, ht⟩ := splitChAux_head sep cs
  rw [ht, List.getElem?_cons_zero]

theorem splitChAux_get1 (sep : Char) (cs : List Char) :
    (splitChAux sep cs)[1]? =
      match cs.dropWhile (fun c => ! (c == sep)) with
      | [] => none
      | _ :: rest => some (rest.takeWhile (fun c => ! (c == sep))) := by
  induction cs with
  | nil => rfl
  | cons c rest ih =>
    by_cases hc : (c == sep) = true
    · rw [List.dropWhile_cons]
      simp only [hc, Bool.not_true, if_false]
      rw [splitChAux]
      simp only [hc, if_true, List.getElem?_cons_succ, List.getElem?_cons_zero]
      exact splitChAux_get0 sep rest
    · obtain ⟨t0, ht0⟩ := splitChAux_head sep rest
      rw [List.dropWhile_cons]
      simp only [hc, Bool.not_false, if_true]
      rw [← ih, splitChAux]
      simp only [hc, if_false, ht0]
      rfl

theorem takeWhile_nested_no_eq (l : List Char)
    (h : ¬ '=' ∈ l.takeWhile (fun c => ! (c == ';'))) :
    (l.takeWhile (fun c => ! (c == '='))).takeWhile (fun c => ! (c == ';'))
      = l.takeWhile (fun c => ! (c == ';')) := by
  induction l with
  | nil => rfl
  | cons c t ih =>
    by_cases h1 : c = '='
    · exfalso
      apply h
      rw [h1, List.takeWhile_cons]
      simp
    · by_cases h2 : c = ';'
      · subst h2
        simp [List.takeWhile_cons]
      · rw [List.takeWhile_cons] at h ⊢
        have hb1 : (c == '=') = false := by simp [h1]
        have hb2 : (c == ';') = false := by simp [h2]
        simp only [hb1, hb2, Bool.not_false, if_true, List.takeWhile_cons] at h ⊢
        simp only [List.mem_cons, not_or] at h
        rw [ih h.2]

/- Helper lemmas for the wait loop: one unfolding step, and the
invariant that whenever the loop breaks, the status it broke on is
terminal and the notification trace determines it. -/

theorem waitRun_cons (last status : String) (rest : List String) :
    waitRun last (status :: rest) =
      (if isTerminalStatus status
       then ((if status = last then [] else [status]), some status)
       else ((if status = last then [] else [status]) ++ (waitRun status rest).1,
             (waitRun status rest).2)) := by
  rw [waitRun]
  by_cases hch : status = last
  · simp [hch]
  · simp [hch]

theorem waitRun_break_inv (script : List String) :
    ∀ (last : String) (ns : List String) (s : String),
      waitRun last script = (ns, some s) →
      isTerminalStatus s = true ∧ (ns = [] → s = last) ∧
        (ns ≠ [] → ns.getLast? = some s) := by
  induction script with
  | nil =>
    intro last ns s h
    simp [waitRun] at h
  | cons status rest ih =>
    intro last ns s h
    rw [waitRun_cons] at h
    by_cases hterm : isTerminalStatus status = true
    · rw [if_pos hterm] at h
      injection h with h1 h2
      injection h2 with h3
      subst h1
      subst h3
      by_cases hch : status = last
      · rw [if_pos hch]
        exact ⟨hterm, fun _ => hch, fun hne => absurd rfl hne⟩
      · rw [if_neg hch]
        refine ⟨hterm, fun hc => ?_, fun _ => rfl⟩
        exact absurd hc (by simp)
    · rw [if_neg hterm] at h
      injection h with h1 h2
      subst h1
      have hrec : waitRun status rest = ((waitRun status rest).1, some s) := by
        rw [← h2]
      obtain ⟨hterm2, hemp, hlast⟩ := ih status (waitRun status rest).1 s hrec
      by_cases hch : status = last
      · rw [if_pos hch]
        simp only [List.nil_append]
        exact ⟨hterm2, fun hc => (hemp hc).trans hch, hlast⟩
      · rw [if_neg hch]
        refine ⟨hterm2, fun hc => absurd hc (by simp), fun _ => ?_⟩
        rcases hr : (waitRun status rest).1 with _ | ⟨x, xs⟩
        · rw [hemp hr]
          rfl
        · rw [hr] at hlast
          rw [List.getLast?_append_cons]
          exact hlast (by simp)

/-- C5: match_code(q, c) returns true exactly when the lower-cased query
equals the lower-cased code, or the lower-cased query with a trailing
asterisk equals the lower-cased code; in particular match_code of a and
A* is true while match_code of a and ab is false. -/
theorem match_code_spec :
    (∀ q c : String,
      match_code q c = true ↔ (pyLower q = pyLower c ∨ pyLower q ++ "*" = pyLower c))
    ∧ match_code "a" "A*" = true ∧ match_code "a" "ab" = false := by
  refine ⟨fun q c => ?_, by decide, by decide⟩
  simp [match_code]

/-- C3: on the scripted status sequence given in the spec the wait loop
notifies exactly once for QUE and once for OK and breaks right at OK;
moreover the break test holds exactly for a status that is nonempty and
differs from the QUE sentinel, so the empty status and QUE never end the
loop and every other status does. -/
theorem wait_scripted_scenario :
    waitScripted ["", "QUE", "QUE", "OK"] = (["QUE", "OK"], some "OK")
    ∧ (∀ s : String, isTerminalStatus s = true ↔ (s ≠ "" ∧ s ≠ "QUE")) := by
  refine ⟨by decide, fun s => ?_⟩
  simp [isTerminalStatus]

/-- C10: whenever the wait loop terminates on some scripted status
sequence, at least one notification was emitted and the last emitted
notification carries the terminal status. -/
theorem wait_last_notification_terminal (script : List String)
    (ns : List String) (s : String)
    (h : waitScripted script = (ns, some s)) :
    ns ≠ [] ∧ ns.getLast? = some s := by
  obtain ⟨hterm, hemp, hlast⟩ := waitRun_break_inv script "" ns s h
  have hne : ns ≠ [] := by
    intro hc
    have hs : s = "" := hemp hc
    rw [hs] at hterm
    simp [isTerminalStatus] at hterm
  exact ⟨hne, hlast hne⟩

theorem wait_last_notification_terminal_witness :
    (["WA"] : List String) ≠ [] ∧ (["WA"] : List String).getLast? = some "WA" :=
  wait_last_notification_terminal ["", "WA"] ["WA"] "WA" (by decide)

/-- C6: after cache[K] = v the membership test for K is true, and a fresh
Cache instance over the same backing file returns v for get(K). -/
theorem cache_round_trip (c : Cache Json) (k : String) (v : Json) :
    ((c.setItem k v).containsKey k).1 = true
    ∧ (((c.setItem k v).reopened).getValue k).1 = some v := by
  constructor
  · simp [Cache.containsKey, Cache.memKey, Cache.peek_setItem]
  · simp [Cache.getValue, Cache.reopened, Cache.setItem, Cache.peek,
      Cache.loadState, List.lookup]

/-- C7: two successive calls of a cached-wrapped function with the same
argument key invoke the underlying function at most once, and both calls
return the value stored in the cache afterwards. -/
theorem cached_call_memoizes {α : Type} (f : Unit → α) (k : String) (c : Cache α) :
    (cachedCall f k c).2.2 + (cachedCall f k (cachedCall f k c).2.1).2.2 ≤ 1
    ∧ ∃ v, (cachedCall f k c).1 = .ok v
        ∧ (cachedCall f k (cachedCall f k c).2.1).1 = .ok v
        ∧ ((cachedCall f k (cachedCall f k c).2.1).2.1.getValue k).1 = some v := by
  rcases hpk : c.peek k with _ | w
  · refine ⟨?_, f (), ?_, ?_, ?_⟩ <;>
      simp [cachedCall, Cache.containsKey, Cache.memKey, Cache.getItem,
        Cache.getValue, hpk, Cache.peek_loadState, Cache.peek_setItem]
  · refine ⟨?_, w, ?_, ?_, ?_⟩ <;>
      simp [cachedCall, Cache.containsKey, Cache.memKey, Cache.getItem,
        Cache.getValue, hpk, Cache.peek_loadState]

/-- C8: a login response with any status other than 302 raises the
invalid-login SatoriError and leaves the settings unchanged, so no
satori_token is stored. -/
theorem login_non302_invalid (st : Settings) (resp : Resp)
    (h : ¬ resp.status = 302) :
    loginStep st resp = (.error (.satori "invalid login"), st) := by
  rw [loginStep, if_neg h]

theorem login_non302_invalid_witness :
    loginStep st0 { status := 403, setCookie := none }
      = (.error (.satori "invalid login"), st0) :=
  login_non302_invalid st0 { status := 403, setCookie := none } (by decide)

/-- C1 (code bug): match_submit_problem does not search the problems of
the resolved contest.  In envC1 the contest query resolves to Contest A
whose listed problem has code abc, so the claim expects the pair
(10, abc); the code instead resolves a contest from the problem string
(raising no-contest-found here), while the parallel match_problem run on
the very same inputs finds the row; and when the problem string does
resolve to a contest (envC1b) the 6-into-3 tuple unpacking raises
ValueError. -/
theorem match_submit_problem_bug :
    (matchSubmitProblem envC1 "contest a" "abc" sess0).1
      = .error (.satori ("no contest " ++ pyRepr "abc" ++ " found"))
    ∧ (matchProblem envC1 "contest a" "abc" sess0).1
      = .ok (.triple (some 10) (some "/pdf/x") none)
    ∧ (matchSubmitProblem envC1b "x" "abc" sess0).1
      = .error (.valueError "too many values to unpack") :=
  ⟨rfl, rfl, rfl⟩

/-- C2 (counterexample): for the 302 response whose set-cookie value has
a second equals sign before the first semicolon, the stored token is not
the substring between the first equals sign and the first following
semicolon: the code stores A while that substring is A=B. -/
theorem login_token_counterexample :
    (loginStep st0
        { status := 302, setCookie := some "satori_token=A=B; Path=/" }).2.satoriToken
      = some "A"
    ∧ specTokenOfCookie "satori_token=A=B; Path=/" = some "A=B"
    ∧ (some "A" : Option String) ≠ some "A=B" :=
  ⟨rfl, rfl, by decide⟩

/-- Helper: a 302 response whose cookie parses to a token stores it. -/
theorem loginStep_302_ok (st : Settings) (cookie tok : String)
    (h : loginToken cookie = .ok tok) :
    loginStep st { status := 302, setCookie := some cookie }
      = (.ok (), { st with satoriToken := some tok }) := by
  simp [loginStep, h]

/-- C2 (amended): for every 302 login response whose set-cookie value
contains an equals sign and no further equals sign before the first
semicolon that follows the first one, the stored token equals the
substring of the header between the first equals sign and that first
following semicolon, which is exactly what the spec parsing rule yields;
the ABC123 example satisfies this. -/
theorem login_token_amended (st : Settings) (cookie : String) (rest : List Char)
    (hsplit : cookie.toList.dropWhile (fun c => ! (c == '=')) = '=' :: rest)
    (hno : ¬ '=' ∈ rest.takeWhile (fun c => ! (c == ';'))) :
    (loginStep st { status := 302, setCookie := some cookie }).2.satoriToken
      = some ((rest.takeWhile (fun c => ! (c == ';'))).asString)
    ∧ specTokenOfCookie cookie
      = some ((rest.takeWhile (fun c => ! (c == ';'))).asString) := by
  constructor
  · have h1 : (splitChAux '=' cookie.toList)[1]?
        = some (rest.takeWhile (fun c => ! (c == '='))) := by
      rw [splitChAux_get1, hsplit]
    have h2 : loginToken cookie
        = .ok (((rest.takeWhile (fun c => ! (c == '='))).takeWhile
            (fun c => ! (c == ';'))).asString) := by
      simp only [loginToken, h1, splitChAux_get0]
    rw [takeWhile_nested_no_eq rest hno] at h2
    rw [loginStep_302_ok st cookie _ h2]
  · simp only [specTokenOfCookie, hsplit]

theorem login_token_amended_witness :
    (loginStep st0
        { status := 302, setCookie := some "satori_token=ABC123; Path=/" }).2.satoriToken
      = some "ABC123"
    ∧ specTokenOfCookie "satori_token=ABC123; Path=/" = some "ABC123" :=
  login_token_amended st0 "satori_token=ABC123; Path=/" "ABC123; Path=/".toList
    (by decide) (by decide)

/-- C4: a query string that parses as an integer makes match_contest,
match_problem and match_submit_problem return that integer unchanged and
leave the request counter untouched, for every session whose cached entry
under the corresponding key, if one exists at all, is the value such a
call stores. -/
theorem integer_query_shortcut (env : Env) (s : Sess) (contest q : String) (n : Int)
    (hq : pyInt q = some n)
    (h1 : ∀ v, s.contestCache.peek (pyReprArgs1 q) = some v → v = n)
    (h2 : ∀ v, s.problemCache.peek (pyReprArgs2 contest q) = some v → v = PVal.int n)
    (h3 : ∀ v, s.submitCache.peek (pyReprArgs2 contest q) = some v → v = SVal.int n) :
    ((matchContest env q s).1 = .ok n
      ∧ (matchContest env q s).2.reqs = s.reqs)
    ∧ ((matchProblem env contest q s).1 = .ok (.int n)
      ∧ (matchProblem env contest q s).2.reqs = s.reqs)
    ∧ ((matchSubmitProblem env contest q s).1 = .ok (.int n)
      ∧ (matchSubmitProblem env contest q s).2.reqs = s.reqs) := by
  refine ⟨?_, ?_, ?_⟩
  · rcases hpk : s.contestCache.peek (pyReprArgs1 q) with _ | w
    · constructor <;>
        simp [matchContest, matchContestFunc, Cache.containsKey, Cache.memKey,
          Cache.getItem, hpk, hq, Cache.peek_loadState, Cache.peek_setItem]
    · have hw := h1 w hpk
      subst hw
      constructor <;>
        simp [matchContest, Cache.containsKey, Cache.memKey, Cache.getItem,
          hpk, Cache.peek_loadState]
  · rcases hpk : s.problemCache.peek (pyReprArgs2 contest q) with _ | w
    · constructor <;>
        simp [matchProblem, matchProblemFunc, Cache.containsKey, Cache.memKey,
          Cache.getItem, hpk, hq, Cache.peek_loadState, Cache.peek_setItem]
    · have hw := h2 w hpk
      subst hw
      constructor <;>
        simp [matchProblem, Cache.containsKey, Cache.memKey, Cache.getItem,
          hpk, Cache.peek_loadState]
  · rcases hpk : s.submitCache.peek (pyReprArgs2 contest q) with _ | w
    · constructor <;>
        simp [matchSubmitProblem, matchSubmitProblemFunc, Cache.containsKey,
          Cache.memKey, Cache.getItem, hpk, hq, Cache.peek_loadState,
          Cache.peek_setItem]
    · have hw := h3 w hpk
      subst hw
      constructor <;>
        simp [matchSubmitProblem, Cache.containsKey, Cache.memKey, Cache.getItem,
          hpk, Cache.peek_loadState]

theorem integer_query_shortcut_witness :
    ((matchContest env0 "42" sess0).1 = .ok 42
      ∧ (matchContest env0 "42" sess0).2.reqs = sess0.reqs)
    ∧ ((matchProblem env0 "c" "42" sess0).1 = .ok (.int 42)
      ∧ (matchProblem env0 "c" "42" sess0).2.reqs = sess0.reqs)
    ∧ ((matchSubmitProblem env0 "c" "42" sess0).1 = .ok (.int 42)
      ∧ (matchSubmitProblem env0 "c" "42" sess0).2.reqs = sess0.reqs) :=
  integer_query_shortcut env0 sess0 "c" "42" 42 (by decide)
    (fun v hv => absurd hv (by simp [sess0, emptyCache, Cache.peek, Cache.loadState]))
    (fun v hv => absurd hv (by simp [sess0, emptyCache, Cache.peek, Cache.loadState]))
    (fun v hv => absurd hv (by simp [sess0, emptyCache, Cache.peek, Cache.loadState]))

/-- C9: for a non-integer query and a session with no cached entry under
its key, match_contest returns the id of the first listed contest whose
name contains the query as a case-insensitive substring, and raises the
no-contest-found SatoriError when no listed name contains it. -/
theorem match_contest_resolution (env : Env) (s : Sess) (q : String)
    (hq : pyInt q = none)
    (hfresh : s.contestCache.peek (pyReprArgs1 q) = none) :
    (∀ row, (listedContests env q).find? (contestNameMatches q) = some row →
      (matchContest env q s).1 = .ok row.2)
    ∧ ((listedContests env q).find? (contestNameMatches q) = none →
      (matchContest env q s).1
        = .error (.satori ("no contest " ++ pyRepr q ++ " found"))) := by
  constructor
  · intro row hrow
    simp [matchContest, matchContestFunc, Cache.containsKey, Cache.memKey,
      Cache.getItem, hfresh, hq, hrow, Cache.peek_loadState, Cache.peek_setItem,
      addReq]
  · intro hnone
    simp [matchContest, matchContestFunc, Cache.containsKey, Cache.memKey,
      Cache.getItem, hfresh, hq, hnone, Cache.peek_loadState, Cache.peek_setItem,
      addReq]

theorem match_contest_resolution_witness :
    (matchContest envW "algo" sess0).1 = .ok 123 :=
  (match_contest_resolution envW sess0 "algo" (by decide)
      (by simp [sess0, emptyCache, Cache.peek, Cache.loadState])).1
    ("Algorithms 2019", 123) (by decide)
